import Mathlib

/-
  Verification of the NATS JetStream broker client
  (src/lib/broker/BrokerFactory.js, class NatsJetStreamBroker).

  The JavaScript code is shallowly embedded: JS objects whose fields the
  broker reads become Lean structures, a missing JS field (undefined) is
  Option.none, JSON values are an inductive type, and the stateful methods
  become explicit functions from the relevant state and transport responses
  to a record of the effects the method performs (queries issued, cache
  writes, emissions, exceptions).  Line numbers refer to the
  NatsJetStreamBroker class in src/lib/broker/BrokerFactory.js.
-/

/-- Model of a JSON value, the payload representable on the wire. -/
inductive JsonVal where
  | null
  | bool (b : Bool)
  | num (n : Int)
  | str (s : String)
  | arr (elems : List JsonVal)
  | obj (fields : List (String × JsonVal))

namespace NatsJetStreamBroker

/-- Property read on a JS object: the first binding of the key, none when
the value is not an object or the key is absent (undefined). -/
def lookupField : List (String × JsonVal) → String → Option JsonVal
  | [], _ => none
  | (k, v) :: rest, key => if k = key then some v else lookupField rest key

/-- JS property access v.key, undefined (none) when v is not an object. -/
def getField : JsonVal → String → Option JsonVal
  | .obj fields, key => lookupField fields key
  | _, _ => none

/-- JS property assignment v.key = value: on an object it overwrites an
existing binding in place or appends the key; on a primitive it is a
silent no-op (the module is not in strict mode). -/
def setField (v : JsonVal) (key : String) (value : JsonVal) : JsonVal :=
  match v with
  | .obj fields =>
      if (fields.map Prod.fst).contains key then
        .obj (fields.map (fun kv => if kv.1 = key then (kv.1, value) else kv))
      else
        .obj (fields ++ [(key, value)])
  | other => other

/-- The attributes of an envelope as built by publish (lines 183-186):
senderId is always set, correlationId may be absent. -/
structure EnvelopeAttributes where
  senderId : String
  correlationId : Option String
deriving DecidableEq

/-- The message envelope built by publish (lines 179-187): id, type, data
and attributes. -/
structure Envelope where
  id : String
  type : String
  data : JsonVal
  attributes : EnvelopeAttributes

/-- JSON object for the attributes part of the envelope.  JSON.stringify
drops a key whose value is undefined, so an absent correlationId does not
appear in the wire object. -/
def attributesFields (a : EnvelopeAttributes) : List (String × JsonVal) :=
  match a.correlationId with
  | some c => [("senderId", .str a.senderId), ("correlationId", .str c)]
  | none => [("senderId", .str a.senderId)]

/-- The JSON object serialized by publish (line 188):
JSON.stringify of the envelope literal of lines 179-187, keys in insertion
order.  The platform text codec (JSON.stringify and JSON.parse of Node,
external to this repository) is modelled as the identity embedding of this
JSON value, so this object is also what JSON.parse returns at line 453 for
a payload produced by publish. -/
def encodeEnvelope (e : Envelope) : JsonVal :=
  .obj [("id", .str e.id), ("type", .str e.type), ("data", e.data),
        ("attributes", .obj (attributesFields e.attributes))]

/-- Read an Option JsonVal as a string field. -/
def asString : Option JsonVal → Option String
  | some (.str s) => some s
  | _ => none

/-- Reconstruction of the envelope from a parsed wire object, reading the
fields the way the consumers of incomingMessages read them
(msg.id, msg.type, msg.data, msg.attributes.senderId,
msg.attributes.correlationId). -/
def decodeEnvelope (v : JsonVal) : Option Envelope :=
  match asString (getField v "id"), asString (getField v "type"),
        getField v "data", getField v "attributes" with
  | some i, some t, some d, some attrs =>
      match asString (getField attrs "senderId") with
      | some sender =>
          some { id := i, type := t, data := d,
                 attributes := { senderId := sender,
                                 correlationId := asString (getField attrs "correlationId") } }
      | none => none
  | _, _, _, _ => none

/-- The options object accepted by createStream (documented fields
retention, storage, max_msgs, max_bytes); the extra field limits models an
arbitrary caller, since line 286 reads streamOptions.limits, a key the
documented shape never sets. -/
structure StreamOptions where
  retention : Option String := none
  storage : Option String := none
  max_msgs : Option Nat := none
  max_bytes : Option Nat := none
  limits : Option String := none
deriving DecidableEq

/-- The stream descriptor passed to jsm.streams.add. -/
structure StreamDescriptor where
  name : String
  subjects : List String
  retention : String
  storage : String
  max_msgs : Nat
  max_bytes : Nat
deriving DecidableEq

/-- The descriptor built by createStream at lines 283-289.  Note that the
source reads streamOptions.limits (not .retention) for the retention field
and streamOptions.max_msgs (not .max_bytes) for the max_bytes field. -/
def addStreamDescriptor (streamName : String) (subjects : List String)
    (streamOptions : StreamOptions) : StreamDescriptor :=
  { name := streamName
  , subjects := subjects
  , retention := streamOptions.limits.getD "limits"
  , storage := streamOptions.storage.getD "file"
  , max_msgs := streamOptions.max_msgs.getD 1000
  , max_bytes := streamOptions.max_msgs.getD 1073741824 }

/-- The descriptor the specification describes: retention from
options.retention, max_bytes from options.max_bytes, same defaults. -/
def specStreamDescriptor (streamName : String) (subjects : List String)
    (streamOptions : StreamOptions) : StreamDescriptor :=
  { name := streamName
  , subjects := subjects
  , retention := streamOptions.retention.getD "limits"
  , storage := streamOptions.storage.getD "file"
  , max_msgs := streamOptions.max_msgs.getD 1000
  , max_bytes := streamOptions.max_bytes.getD 1073741824 }

/-- Outcome of the jsm.streams.info call inside createStream: the stream
exists (truthy info), the call rejects with code 404, or it rejects with
another code (in which case the catch block at lines 280-299 does
nothing). -/
inductive InfoOutcome where
  | found
  | err404
  | errOther
deriving DecidableEq

/-- Observable effects of one createStream call (lines 270-300):
the successive assignments to verifiedStreams for the stream name, whether
jsm.streams.info and jsm.streams.add were issued, and whether the returned
promise rejects. -/
structure CreateStreamRun where
  cacheWrites : List Bool
  infoQueried : Bool
  addCalled : Bool
  rejects : Bool
deriving DecidableEq

/-- One createStream call (lines 270-300), as a function of the cached
verification entry for the name and the transport responses.
Control flow of the source: return immediately when the cache entry is
truthy (line 271); otherwise await info — a truthy info returns (line 277);
on a rejection with code 404, await add with an attached catch handler: on
add failure the handler writes false to the cache and returns from the
handler only, so the next statement (line 297) still writes true; the
promise never rejects. -/
def createStream (cached : Option Bool) (info : InfoOutcome)
    (addSucceeds : Bool) : CreateStreamRun :=
  if cached = some true then
    { cacheWrites := [], infoQueried := false, addCalled := false, rejects := false }
  else
    match info with
    | .found => { cacheWrites := [], infoQueried := true, addCalled := false, rejects := false }
    | .errOther => { cacheWrites := [], infoQueried := true, addCalled := false, rejects := false }
    | .err404 =>
        if addSucceeds then
          { cacheWrites := [true], infoQueried := true, addCalled := true, rejects := false }
        else
          { cacheWrites := [false, true], infoQueried := true, addCalled := true, rejects := false }

/-- The verification cache entry for the name after a createStream run. -/
def finalCache (cached : Option Bool) (run : CreateStreamRun) : Option Bool :=
  match run.cacheWrites.getLast? with
  | some b => some b
  | none => cached

/-- Terminal signal of the start observable. -/
inductive StartResult where
  | completed
  | errored
deriving DecidableEq

/-- The start observable (lines 136-163) with a successful transport
connect: provisioning runs only when the stream name is truthy and the
subject list is nonempty (lines 145-152); the observable errors exactly
when the awaited createStream rejects, and completes otherwise. -/
def startRun (streamName : String) (subjects : List String)
    (cached : Option Bool) (info : InfoOutcome) (addSucceeds : Bool) : StartResult :=
  if streamName ≠ "" ∧ 0 < subjects.length then
    if (createStream cached info addSucceeds).rejects then .errored else .completed
  else .completed

/-- JS new Set of an array: deduplication keeping the first occurrence of
each element, in order. -/
def jsNewSet (l : List String) : List String :=
  l.foldl (fun acc x => if acc.contains x then acc else acc ++ [x]) []

/-- Observable effects of one ensureSubjectInStream call: whether
jsm.streams.update was issued, and the subject list of the stream
configuration afterwards. -/
structure EnsureRun where
  updateCalled : Bool
  configSubjects : List String
deriving DecidableEq

/-- One ensureSubjectInStream call (lines 204-234) as a function of the
current stream configuration subjects and the requested subjects: it first
checks for set equality with matching length (lines 210-214), then for an
empty difference (lines 216-219), and only otherwise merges, deduplicates
and issues the update (lines 221-229). -/
def ensureSubjectInStream (currentSubjects subjects : List String) : EnsureRun :=
  if currentSubjects.length == subjects.length &&
      currentSubjects.all (fun sub => subjects.contains sub) then
    { updateCalled := false, configSubjects := currentSubjects }
  else if (subjects.filter (fun sub => !(currentSubjects.contains sub))).length == 0 then
    { updateCalled := false, configSubjects := currentSubjects }
  else
    { updateCalled := true
    , configSubjects :=
        jsNewSet (currentSubjects ++ subjects.filter (fun sub => !(currentSubjects.contains sub))) }

/-- The provisioning step of send (line 251): send routes its subject list
through ensureSubjectInStream, replacing a nullish list by the empty
list. -/
def sendEnsure (currentSubjects : List String) (subjects : Option (List String)) : EnsureRun :=
  ensureSubjectInStream currentSubjects (subjects.getD [])

/-- The consumer setups initiated by one configMessageListener call
(lines 423-473).  The source list is emitted synchronously by from, and
the membership filter of line 425 runs for every element during that
synchronous emission; the push to listeningSubjects (line 466) happens
only after the awaited js.subscribe resolves, which is after the whole
synchronous emission, so every occurrence is checked against the listening
set as it stood when the call began.  Each subject in the result is one
js.subscribe call, hence one consumer setup. -/
def setupsInitiated (listeningSubjects : List String) (subjects : List String) : List String :=
  subjects.filter (fun subject => !(listeningSubjects.contains subject))

/-- The listening set after every setup initiated by the call has
completed: each completed setup pushes its subject (line 466). -/
def listeningAfterCall (listeningSubjects subjects : List String) : List String :=
  listeningSubjects ++ setupsInitiated listeningSubjects subjects

/-- Observable effects of one iteration of the consume loop body
(lines 445-464) on a delivered message: the value emitted on
incomingMessages, whether msg.ack was called, whether the body raised an
exception (terminating the for-await loop), and the net change it leaves
on unacknowledgedCount. -/
structure LoopBodyRun where
  emitted : Option JsonVal
  acked : Bool
  threw : Bool
  counterDelta : Int

/-- One iteration of the consume loop body (lines 445-464), as a function
of the JSON.parse outcome on the payload text (some value when the bytes
are valid JSON, none when JSON.parse throws).  On a parse success the loop
increments the counter, tags the parsed value with the subject (line 459),
emits it, acks and decrements (net counter change 0).  On a parse failure
control reaches the catch block with the local variable parsed still
unassigned (undefined), and the log template of line 455 evaluates
parsed.raw, which raises a TypeError out of the catch block: the error
record of line 456 is never built, nothing is emitted, the message is not
acked, the increment of line 450 is never undone, and the loop
terminates. -/
def consumeLoopBody (parseResult : Option JsonVal) (subject : String) : LoopBodyRun :=
  match parseResult with
  | some parsed =>
      { emitted := some (setField parsed "subject" (.str subject))
      , acked := true
      , threw := false
      , counterDelta := 0 }
  | none =>
      { emitted := none
      , acked := false
      , threw := true
      , counterDelta := 1 }

/-- State of one consume loop for the flow control model: the number of
messages the stream has delivered that the loop has not yet accepted, and
whether the loop is currently between its increment (line 450) and its
decrement (line 463). -/
structure ConsumeLoop where
  pending : Nat
  inFlight : Bool
deriving DecidableEq

/-- Shared state of one broker instance for the flow control model: the
shared counter unacknowledgedCount, the consume loops (one per subscribed
subject), and the total number of acknowledged messages. -/
structure BrokerFlowState where
  unacknowledgedCount : Int
  loops : List ConsumeLoop
  acked : Nat

/-- Interleaving semantics of the consume loops of lines 444-465, split at
the observable points of the shared counter.  An accept step is the exit
of the flow control wait of lines 447-449 followed by the increment of
line 450: it requires the shared counter to be strictly below
maxUnacknowledged, exactly the exit condition of the while loop (between
the check and the increment there is no suspension point).  An ack step is
the acknowledgment and decrement of lines 462-463.  Any interleaving of
the loops is allowed, an over-approximation of the event loop
scheduling. -/
inductive FlowStep (maxUnacknowledged : Int) : BrokerFlowState → BrokerFlowState → Prop
  | accept (l₁ l₂ : List ConsumeLoop) (p : Nat) (c : Int) (a : Nat)
      (hflow : c < maxUnacknowledged) :
      FlowStep maxUnacknowledged
        ⟨c, l₁ ++ ⟨p + 1, false⟩ :: l₂, a⟩
        ⟨c + 1, l₁ ++ ⟨p, true⟩ :: l₂, a⟩
  | ack (l₁ l₂ : List ConsumeLoop) (p : Nat) (c : Int) (a : Nat) :
      FlowStep maxUnacknowledged
        ⟨c, l₁ ++ ⟨p, true⟩ :: l₂, a⟩
        ⟨c - 1, l₁ ++ ⟨p, false⟩ :: l₂, a + 1⟩

/-- States reachable by the consume loops from a given state. -/
def FlowReachable (maxUnacknowledged : Int) : BrokerFlowState → BrokerFlowState → Prop :=
  Relation.ReflTransGen (FlowStep maxUnacknowledged)

/-- Number of loops currently holding an unacknowledged delivery. -/
def inFlightCount (loops : List ConsumeLoop) : Int :=
  ((loops.filter (fun l => l.inFlight)).length : Int)

/-- Flow control invariant: the shared counter equals the number of
in-flight loops and stays at most maxUnacknowledged. -/
def FlowInv (maxUnacknowledged : Int) (s : BrokerFlowState) : Prop :=
  s.unacknowledgedCount = inFlightCount s.loops ∧
  s.unacknowledgedCount ≤ maxUnacknowledged

/-- The scenario start state: one subject, 150 delivered messages pending,
nothing accepted yet. -/
def scenarioInit : BrokerFlowState :=
  { unacknowledgedCount := 0, loops := [⟨150, false⟩], acked := 0 }

/-- Attributes object of a message on the incomingMessages channel; each
field may be absent. -/
structure MessageAttributes where
  senderId : Option String
  correlationId : Option String
deriving DecidableEq

/-- A (non-null) JS value on the incomingMessages channel, restricted to
the fields the filter chains read: attributes (absent on a record not
shaped like an envelope), a top level correlationId, the subject tag, the
data payload, and the error and raw fields of a decode error record. -/
structure BrokerMessage where
  attributes : Option MessageAttributes := none
  correlationId : Option String := none
  subject : Option String := none
  data : Option JsonVal := none
  error : Option String := none
  raw : Option String := none

/-- Result of running a filter chain on one message: the message passes,
is dropped, or the predicate raises a TypeError (which errors the derived
observable). -/
inductive FilterOutcome where
  | pass
  | drop
  | tyError
deriving DecidableEq

/-- The filter chain of getMessageListener (lines 409-411) on one emission
of incomingMessages.  Line 409 drops the null sentinel.  Line 410
evaluates msg.attributes.senderId whenever ignoreSelfEvents is true: when
the message has no attributes object the access raises a TypeError; when
senderId is absent the strict inequality with the sender id holds and the
message is kept.  Line 411 passes when the subject list is empty or
contains the subject tag of the message (indexOf of undefined is -1). -/
def listenerFilterEval (selfSenderId : String) (subjects : List String)
    (ignoreSelfEvents : Bool) (msg : Option BrokerMessage) : FilterOutcome :=
  match msg with
  | none => .drop
  | some m =>
      let subjectStage : FilterOutcome :=
        if subjects.length == 0 then .pass
        else
          match m.subject with
          | some s => if subjects.contains s then .pass else .drop
          | none => .drop
      if ignoreSelfEvents then
        match m.attributes with
        | none => .tyError
        | some attrs =>
            if attrs.senderId == some selfSenderId then .drop else subjectStage
      else subjectStage

/-- The correlation id sendAndGetReply targets (line 333):
ops.correlationId when defined, otherwise payload.correlationId. -/
def effectiveCorrelationId (opsCorrelationId payloadCorrelationId : Option String) : Option String :=
  match opsCorrelationId with
  | some c => some c
  | none => payloadCorrelationId

/-- The filter chain of getMessageReply (lines 388-390) on one emission of
incomingMessages.  Line 388 drops the null sentinel; line 389 is the self
filter (unguarded access to msg.attributes.senderId when ignoreSelfEvents
is true); line 390 keeps the message when
msg.attributes.correlationId, falling back to msg.correlationId when the
former is undefined, is strictly equal to the target correlation id — and
undefined is strictly equal to undefined. -/
def replyFilterEval (selfSenderId : String) (ignoreSelfEvents : Bool)
    (correlationId : Option String) (msg : Option BrokerMessage) : FilterOutcome :=
  match msg with
  | none => .drop
  | some m =>
      let msgCorrelation : Option String :=
        match m.attributes.bind (fun a => a.correlationId) with
        | some c => some c
        | none => m.correlationId
      let correlationStage : FilterOutcome :=
        if msgCorrelation == correlationId then .pass else .drop
      if ignoreSelfEvents then
        match m.attributes with
        | none => .tyError
        | some attrs =>
            if attrs.senderId == some selfSenderId then .drop else correlationStage
      else correlationStage

/-- Terminal outcome of the reply wait of getMessageReply (lines 380-394)
over a finite window of emissions of incomingMessages: resolution with the
data field of the first message passing the chain (map at line 391, first
at line 393), a TypeError raised by the chain, or no match within the
window (the timeout of line 392 then fires). -/
inductive ReplyOutcome where
  | resolvedWith (d : Option JsonVal)
  | timeout
  | errored

/-- The reply wait of getMessageReply applied to the successive emissions
of incomingMessages within the timeout window. -/
def replyScan (selfSenderId : String) (ignoreSelfEvents : Bool)
    (correlationId : Option String) : List (Option BrokerMessage) → ReplyOutcome
  | [] => .timeout
  | msg :: rest =>
      if replyFilterEval selfSenderId ignoreSelfEvents correlationId msg = .tyError then
        .errored
      else if replyFilterEval selfSenderId ignoreSelfEvents correlationId msg = .pass then
        match msg with
        | some m => .resolvedWith m.data
        | none => .timeout
      else replyScan selfSenderId ignoreSelfEvents correlationId rest

end NatsJetStreamBroker

namespace NatsJetStreamBroker

section HelperLemmas

theorem inFlightCount_append (l₁ l₂ : List ConsumeLoop) :
    inFlightCount (l₁ ++ l₂) = inFlightCount l₁ + inFlightCount l₂ := by
  simp [inFlightCount, List.filter_append]

theorem inFlightCount_cons_true (p : Nat) (l : List ConsumeLoop) :
    inFlightCount (ConsumeLoop.mk p true :: l) = inFlightCount l + 1 := by
  simp [inFlightCount, List.filter_cons]

theorem inFlightCount_cons_false (p : Nat) (l : List ConsumeLoop) :
    inFlightCount (ConsumeLoop.mk p false :: l) = inFlightCount l := by
  simp [inFlightCount, List.filter_cons]

theorem inFlightCount_nonneg (l : List ConsumeLoop) : 0 ≤ inFlightCount l := by
  simp [inFlightCount]

theorem flowStep_preserves_inv (maxU : Int) (s t : BrokerFlowState)
    (hstep : FlowStep maxU s t) (hinv : FlowInv maxU s) : FlowInv maxU t := by
  obtain ⟨hcount, hle⟩ := hinv
  cases hstep with
  | accept l₁ l₂ p c a hflow =>
      simp only [FlowInv, inFlightCount_append, inFlightCount_cons_true,
        inFlightCount_cons_false] at hcount hle ⊢
      constructor
      · omega
      · omega
  | ack l₁ l₂ p c a =>
      simp only [FlowInv, inFlightCount_append, inFlightCount_cons_true,
        inFlightCount_cons_false] at hcount hle ⊢
      constructor
      · omega
      · omega

theorem flowReachable_inv (maxU : Int) (s t : BrokerFlowState)
    (h : FlowReachable maxU s t) (hinv : FlowInv maxU s) : FlowInv maxU t := by
  induction h with
  | refl => exact hinv
  | tail _ hstep ih => exact flowStep_preserves_inv maxU _ _ hstep ih

theorem flowDrain (maxU : Int) (hmax : 0 < maxU) (n a : Nat) :
    FlowReachable maxU ⟨0, [⟨n, false⟩], a⟩ ⟨0, [⟨0, false⟩], a + n⟩ := by
  induction n generalizing a with
  | zero => exact Relation.ReflTransGen.refl
  | succ n ih =>
      have s1 : FlowStep maxU ⟨0, [⟨n + 1, false⟩], a⟩ ⟨0 + 1, [⟨n, true⟩], a⟩ :=
        FlowStep.accept [] [] n 0 a hmax
      have s2 : FlowStep maxU ⟨0 + 1, [⟨n, true⟩], a⟩ ⟨0 + 1 - 1, [⟨n, false⟩], a + 1⟩ :=
        FlowStep.ack [] [] n (0 + 1) a
      have rest := ih (a + 1)
      have heq : a + 1 + n = a + (n + 1) := by omega
      rw [heq] at rest
      have s2' : FlowStep maxU ⟨0 + 1, [⟨n, true⟩], a⟩ ⟨0, [⟨n, false⟩], a + 1⟩ := by
        have hz : (0 : Int) + 1 - 1 = 0 := by norm_num
        rw [hz] at s2
        exact s2
      exact Relation.ReflTransGen.head s1 (Relation.ReflTransGen.head s2' rest)

end HelperLemmas

/-- C8: decoding the wire object produced by publish for any envelope
yields the same envelope back: the id, type, data, sender id and
correlation id survive the round trip unchanged. -/
theorem decode_encode_roundtrip (e : Envelope) :
    decodeEnvelope (encodeEnvelope e) = some e := by
  obtain ⟨i, t, d, sid, corr⟩ := e
  cases corr <;>
    simp [decodeEnvelope, encodeEnvelope, attributesFields, getField, lookupField, asString]

/-- Witness for C8 at a concrete envelope. -/
theorem decode_encode_roundtrip_witness :
    decodeEnvelope (encodeEnvelope
      { id := "m1", type := "T", data := .obj [("v", .num 1)],
        attributes := { senderId := "hostA", correlationId := some "c1" } }) =
    some { id := "m1", type := "T", data := .obj [("v", .num 1)],
           attributes := { senderId := "hostA", correlationId := some "c1" } } :=
  decode_encode_roundtrip _

/-- C3: evaluation of the descriptor builder at options that set retention
"interest", max_msgs 7 and max_bytes 5368709120: the code produces
retention "limits" (it reads the unset limits key) and max_bytes 7 (it
reads max_msgs), diverging from the descriptor the specification
describes. -/
theorem addStreamDescriptor_mismatch_eval :
    addStreamDescriptor "MESSAGES" ["X.*"]
        { retention := some "interest", max_msgs := some 7, max_bytes := some 5368709120 } =
      { name := "MESSAGES", subjects := ["X.*"], retention := "limits",
        storage := "file", max_msgs := 7, max_bytes := 7 } ∧
    specStreamDescriptor "MESSAGES" ["X.*"]
        { retention := some "interest", max_msgs := some 7, max_bytes := some 5368709120 } =
      { name := "MESSAGES", subjects := ["X.*"], retention := "interest",
        storage := "file", max_msgs := 7, max_bytes := 5368709120 } ∧
    addStreamDescriptor "MESSAGES" ["X.*"]
        { retention := some "interest", max_msgs := some 7, max_bytes := some 5368709120 } ≠
    specStreamDescriptor "MESSAGES" ["X.*"]
        { retention := some "interest", max_msgs := some 7, max_bytes := some 5368709120 } := by
  refine ⟨rfl, rfl, ?_⟩
  decide

/-- C2: evaluation of createStream at an absent stream whose add call
fails: the catch handler writes false to the cache but the following
statement overwrites it with true, the promise resolves instead of
rejecting, and the start observable completes successfully. -/
theorem createStream_failure_swallowed_eval :
    createStream none .err404 false =
      { cacheWrites := [false, true], infoQueried := true, addCalled := true,
        rejects := false } ∧
    finalCache none (createStream none .err404 false) = some true ∧
    startRun "MESSAGES" ["X.*"] none .err404 false = .completed := by
  refine ⟨rfl, rfl, ?_⟩
  decide

/-- C5 counterexample: when the stream already exists, createStream
resolves successfully but leaves the verification cache unset, and a
second call for the same name queries the stream service again. -/
theorem createStream_preexisting_not_cached :
    (createStream none .found true).rejects = false ∧
    finalCache none (createStream none .found true) = none ∧
    (createStream (finalCache none (createStream none .found true)) .found true).infoQueried
      = true := by
  decide

/-- C5 amended: only a createStream call that newly creates the stream
marks the cache verified, after which subsequent calls return immediately
with no query; when the stream already existed the cache is left unset and
every subsequent call queries the stream service again. -/
theorem createStream_verified_cache_amended (info : InfoOutcome) (addSucceeds : Bool) :
    finalCache none (createStream none .err404 true) = some true ∧
    createStream (some true) info addSucceeds =
      { cacheWrites := [], infoQueried := false, addCalled := false, rejects := false } ∧
    finalCache none (createStream none .found addSucceeds) = none ∧
    (createStream none .found addSucceeds).infoQueried = true := by
  refine ⟨rfl, ?_, ?_, ?_⟩
  · cases info <;> cases addSucceeds <;> rfl
  · rfl
  · rfl

/-- Witness for C5 amended at concrete transport responses. -/
theorem createStream_verified_cache_amended_witness :
    finalCache none (createStream none .err404 true) = some true ∧
    createStream (some true) .found true =
      { cacheWrites := [], infoQueried := false, addCalled := false, rejects := false } ∧
    finalCache none (createStream none .found true) = none ∧
    (createStream none .found true).infoQueried = true :=
  createStream_verified_cache_amended .found true

/-- C6: when every requested subject already belongs to the stream
configuration, ensureSubjectInStream issues no update and leaves the
configuration unchanged, and the provisioning steps of two sequential
send calls with such subjects both issue no update. -/
theorem ensureSubjectInStream_noop (current subjects : List String)
    (h : ∀ s ∈ subjects, s ∈ current) :
    ensureSubjectInStream current subjects =
      { updateCalled := false, configSubjects := current } ∧
    sendEnsure current (some subjects) =
      { updateCalled := false, configSubjects := current } ∧
    sendEnsure (sendEnsure current (some subjects)).configSubjects (some subjects) =
      { updateCalled := false, configSubjects := current } := by
  have hfilter : subjects.filter (fun sub => !(current.contains sub)) = [] := by
    rw [List.filter_eq_nil_iff]
    intro a ha
    simpa using h a ha
  have hcore : ensureSubjectInStream current subjects =
      { updateCalled := false, configSubjects := current } := by
    unfold ensureSubjectInStream
    rw [hfilter]
    split
    · rfl
    · rfl
  have hsend : sendEnsure current (some subjects) =
      { updateCalled := false, configSubjects := current } := by
    unfold sendEnsure
    simpa using hcore
  refine ⟨hcore, hsend, ?_⟩
  rw [hsend]
  exact hsend

/-- Witness for C6 at a concrete configuration. -/
theorem ensureSubjectInStream_noop_witness :
    ensureSubjectInStream ["X.*", "RES"] ["RES"] =
      { updateCalled := false, configSubjects := ["X.*", "RES"] } ∧
    sendEnsure ["X.*", "RES"] (some ["RES"]) =
      { updateCalled := false, configSubjects := ["X.*", "RES"] } ∧
    sendEnsure (sendEnsure ["X.*", "RES"] (some ["RES"])).configSubjects (some ["RES"]) =
      { updateCalled := false, configSubjects := ["X.*", "RES"] } :=
  ensureSubjectInStream_noop ["X.*", "RES"] ["RES"] (by decide)

/-- C4 counterexample: one configMessageListener call on the duplicate
list initiates two consumer setups for the subject, not one. -/
theorem configMessageListener_duplicate_counterexample :
    (setupsInitiated [] ["S", "S"]).length = 2 ∧
    (setupsInitiated [] ["S", "S"]).length ≠ 1 := by
  decide

/-- C4 amended: within one call every occurrence of a not yet subscribed
subject initiates a consumer setup, because the membership filter for all
occurrences runs against the listening set from before the call while the
insertions happen only after the awaited subscribe resolves; the duplicate
list therefore initiates two setups.  Idempotence holds only across calls
whose setups completed: after a call for the subject has finished, a later
call initiates none. -/
theorem configMessageListener_duplicate_amended (S : String) (listening : List String)
    (h : listening.contains S = false) :
    (setupsInitiated listening [S, S]).length = 2 ∧
    (setupsInitiated listening [S]).length = 1 ∧
    setupsInitiated (listeningAfterCall listening [S]) [S] = [] := by
  have hmem : S ∉ listening := by simpa using h
  refine ⟨?_, ?_, ?_⟩
  · simp [setupsInitiated, hmem]
  · simp [setupsInitiated, hmem]
  · simp [setupsInitiated, listeningAfterCall, hmem]

/-- Witness for C4 amended at a concrete subject. -/
theorem configMessageListener_duplicate_amended_witness :
    (setupsInitiated [] ["S", "S"]).length = 2 ∧
    (setupsInitiated [] ["S"]).length = 1 ∧
    setupsInitiated (listeningAfterCall [] ["S"]) ["S"] = [] :=
  configMessageListener_duplicate_amended "S" [] (by decide)

/-- C1: evaluation of the consume loop body at a message whose payload is
not valid JSON: nothing is emitted on incomingMessages, the message is not
acknowledged, the body raises (terminating the consume loop) and the
shared counter is left incremented. -/
theorem consumeLoopBody_invalid_json_eval :
    (consumeLoopBody none "X.1").emitted = none ∧
    (consumeLoopBody none "X.1").acked = false ∧
    (consumeLoopBody none "X.1").threw = true ∧
    (consumeLoopBody none "X.1").counterDelta = 1 :=
  ⟨rfl, rfl, rfl, rfl⟩

/-- C7: any step that increments the shared counter starts strictly below
the threshold; in the scenario of 150 pending messages with threshold 100
every reachable state keeps the counter between 0 and 100; and a run
exists that acknowledges all 150 messages and returns the counter to 0. -/
theorem flowControl_claim :
    (∀ (maxU : Int) (s t : BrokerFlowState), FlowStep maxU s t →
        t.unacknowledgedCount = s.unacknowledgedCount + 1 →
        s.unacknowledgedCount < maxU) ∧
    (∀ s : BrokerFlowState, FlowReachable 100 scenarioInit s →
        0 ≤ s.unacknowledgedCount ∧ s.unacknowledgedCount ≤ 100) ∧
    (∃ sf : BrokerFlowState, FlowReachable 100 scenarioInit sf ∧
        sf.acked = 150 ∧ sf.unacknowledgedCount = 0) := by
  refine ⟨?_, ?_, ?_⟩
  · intro maxU s t hstep hinc
    cases hstep with
    | accept l₁ l₂ p c a hflow => exact hflow
    | ack l₁ l₂ p c a => simp at hinc; omega
  · intro s hreach
    have hinit : FlowInv 100 scenarioInit := by
      constructor
      · simp [scenarioInit, inFlightCount]
      · simp [scenarioInit]
    have hinv := flowReachable_inv 100 scenarioInit s hreach hinit
    obtain ⟨hcount, hle⟩ := hinv
    refine ⟨?_, hle⟩
    rw [hcount]
    exact inFlightCount_nonneg s.loops
  · refine ⟨⟨0, [⟨0, false⟩], 150⟩, ?_, rfl, rfl⟩
    have := flowDrain 100 (by norm_num) 150 0
    simpa [scenarioInit] using this

/-- Witness for C7: the invariant instantiated at the initial state. -/
theorem flowControl_claim_witness :
    0 ≤ scenarioInit.unacknowledgedCount ∧ scenarioInit.unacknowledgedCount ≤ 100 :=
  flowControl_claim.2.1 scenarioInit Relation.ReflTransGen.refl

/-- C9: when neither ops nor payload carries a correlation id, the target
correlation id is undefined and the reply chain passes any message from
another sender that carries no correlation id in either position, so the
round trip resolves with the data of that unrelated message instead of
timing out. -/
theorem reply_undefined_correlation (selfId sender : String) (m : BrokerMessage)
    (hattrs : m.attributes = some { senderId := some sender, correlationId := none })
    (hne : sender ≠ selfId)
    (hcorr : m.correlationId = none) :
    effectiveCorrelationId none none = none ∧
    replyFilterEval selfId true (effectiveCorrelationId none none) (some m) = .pass ∧
    replyScan selfId true (effectiveCorrelationId none none) [some m] = .resolvedWith m.data := by
  have hpass : replyFilterEval selfId true none (some m) = .pass := by
    simp [replyFilterEval, hattrs, hcorr, hne]
  refine ⟨rfl, hpass, ?_⟩
  show replyScan selfId true none [some m] = ReplyOutcome.resolvedWith m.data
  simp [replyScan, hpass]

/-- Witness for C9 at a concrete unrelated message. -/
theorem reply_undefined_correlation_witness :
    effectiveCorrelationId none none = none ∧
    replyFilterEval "hostA" true (effectiveCorrelationId none none)
      (some { attributes := some { senderId := some "hostB", correlationId := none },
              subject := some "RES", data := some (.str "unrelated") }) = .pass ∧
    replyScan "hostA" true (effectiveCorrelationId none none)
      [some { attributes := some { senderId := some "hostB", correlationId := none },
              subject := some "RES", data := some (.str "unrelated") }] =
      .resolvedWith (some (.str "unrelated")) :=
  reply_undefined_correlation "hostA" "hostB" _ rfl (by decide) rfl

/-- C10: on any emitted message without an attributes object, the self
filter of getMessageListener raises a TypeError when ignoreSelfEvents is
true, erroring the listener view, while with ignoreSelfEvents false the
access is short-circuited and the message passes the chain. -/
theorem listener_filter_unguarded (selfId : String) (subjects : List String)
    (m : BrokerMessage) (hattrs : m.attributes = none)
    (hsub : subjects = [] ∨ ∃ s, m.subject = some s ∧ subjects.contains s = true) :
    listenerFilterEval selfId subjects true (some m) = .tyError ∧
    listenerFilterEval selfId subjects false (some m) = .pass := by
  constructor
  · simp [listenerFilterEval, hattrs]
  · rcases hsub with hempty | ⟨s, hs, hmem⟩
    · simp [listenerFilterEval, hempty]
    · have hmem' : s ∈ subjects := by simpa using hmem
      by_cases hlen : subjects.length = 0
      · simp [listenerFilterEval, hlen]
      · simp [listenerFilterEval, hlen, hs, hmem']

/-- Witness for C10 at the decode error record the catch block of the
consume loop is meant to build. -/
theorem listener_filter_unguarded_witness :
    listenerFilterEval "hostA" [] true
      (some { error := some "Invalid JSON", raw := some "hola", subject := some "X.1" })
      = .tyError ∧
    listenerFilterEval "hostA" [] false
      (some { error := some "Invalid JSON", raw := some "hola", subject := some "X.1" })
      = .pass :=
  listener_filter_unguarded "hostA" [] _ rfl (Or.inl rfl)

end NatsJetStreamBroker
